import Mathlib

/-!
Verification of the webhook-event handling layer in
`discord-ext-webhook-events` (`src/discord/ext/webhook_events/client.py`).

The layer receives JSON webhook envelopes over HTTP, classifies them, and
forwards them to the underlying gateway client. We model Python values as
they exist after `json.loads` (the JSON `null` literal becomes the Python
`None` object), Python dictionary access (`d[k]` raising `KeyError`,
`d.get(k)` defaulting to `None`), and Python `==` (where `bool` is a
subclass of `int`, so `True == 1` and `False == 0`). Fallible Python code
is modelled with `Except`. The four public classes (`Client`,
`AutoShardedClient`, `Bot`, `AutoShardedBot`) each carry their own copies
of the route handlers and the dispatcher; each copy is translated
separately from its class body. Collaborator entry points that live in
the underlying gateway-client library (an external dependency whose code
is not part of this repository) are modelled from the specification text
describing the collaborator surface.
-/

/-- A Python value as produced by `json.loads`: the JSON `null` literal is
the Python `None` object, JSON booleans are Python `bool`, JSON numbers
are modelled as integers (the payloads in scope carry no fractional
numbers), strings, lists and dictionaries (association lists with
first-match lookup on unique keys). -/
inductive PyValue where
  | none
  | bool (b : Bool)
  | int (n : Int)
  | str (s : String)
  | list (xs : List PyValue)
  | dict (fields : List (String × PyValue))
deriving Repr

/-- A Python runtime exception relevant to this code: `KeyError` from
`d[k]` on a missing key, `TypeError` from indexing a non-dictionary, and
`AttributeError` from calling `.get` on a non-dictionary. Any of these,
raised inside a route handler, escapes uncaught and surfaces as a server
error. -/
inductive PyError where
  | keyError (k : String)
  | typeError (msg : String)
  | attributeError (msg : String)
deriving Repr, DecidableEq

/-- First-match lookup in a Python dictionary (keys are unique). -/
def dictLookup (fields : List (String × PyValue)) (k : String) : Option PyValue :=
  match fields with
  | [] => Option.none
  | (k2, v) :: rest => if k2 = k then Option.some v else dictLookup rest k

/-- Python subscript `d[k]`: raises `KeyError` when the key is absent and
`TypeError` when the receiver is not a dictionary. -/
def PyValue.getItem (v : PyValue) (k : String) : Except PyError PyValue :=
  match v with
  | .dict fields =>
    match dictLookup fields k with
    | Option.some x => .ok x
    | Option.none => .error (.keyError k)
  | _ => .error (.typeError "object is not subscriptable")

/-- Python `d.get(k)` with the default argument omitted: yields the value
when the key is present, the `None` object otherwise; raises
`AttributeError` when the receiver is not a dictionary. -/
def PyValue.get (v : PyValue) (k : String) : Except PyError PyValue :=
  match v with
  | .dict fields =>
    match dictLookup fields k with
    | Option.some x => .ok x
    | Option.none => .ok .none
  | _ => .error (.attributeError "object has no attribute get")

mutual

/-- Python `==` on the values above. `bool` is a subclass of `int` in
Python, so `True == 1` and `False == 0` hold. Lists compare elementwise
and dictionaries compare fieldwise; the handlers under verification only
ever compare against integer and string literals, so the container cases
are never reached on a control path (dictionary comparison is modelled as
ordered, which Python ignores, but no handler compares two
dictionaries). -/
def pyEq : PyValue → PyValue → Bool
  | .none, .none => true
  | .bool b, .bool c => b == c
  | .bool b, .int n => (if b then (1 : Int) else 0) == n
  | .int n, .bool b => n == (if b then (1 : Int) else 0)
  | .int m, .int n => m == n
  | .str s, .str t => s == t
  | .list xs, .list ys => pyEqList xs ys
  | .dict xs, .dict ys => pyEqFields xs ys
  | _, _ => false
termination_by structural v _ => v

/-- Elementwise Python `==` on lists. -/
def pyEqList : List PyValue → List PyValue → Bool
  | [], [] => true
  | x :: xs, y :: ys => pyEq x y && pyEqList xs ys
  | _, _ => false
termination_by structural xs _ => xs

/-- Fieldwise Python `==` on dictionary field lists. -/
def pyEqFields : List (String × PyValue) → List (String × PyValue) → Bool
  | [], [] => true
  | (k1, x) :: xs, (k2, y) :: ys => k1 == k2 && pyEq x y && pyEqFields xs ys
  | _, _ => false
termination_by structural xs _ => xs

end

/-- The user object `discord.User(state=..., data=...)` built from the
nested user payload. The parsing internals belong to the underlying
gateway-client library and are out of scope; the object is identified by
the payload it was built from. -/
structure UserObj where
  data : PyValue
deriving Repr

/-- A guild object resolved or created by the client state. Identified by
the payload it was created from. -/
structure GuildObj where
  data : PyValue
deriving Repr

/-- An entitlement record parsed by the client state. Identified by the
payload it was created from. -/
structure EntitlementObj where
  data : PyValue
deriving Repr

/-- An argument of a dispatched notification, in positional order. -/
inductive DispatchArg where
  | user (u : UserObj)
  | guild (g : GuildObj)
  | entitlement (e : EntitlementObj)
  | value (v : PyValue)
deriving Repr

/-- A notification emitted on the client event bus by
`self.dispatch(name, *args)`: the event name and its arguments in
order. -/
structure Notification where
  name : String
  args : List DispatchArg
deriving Repr

/-- The mutable internal state of the gateway client (`self._connection`)
as far as this layer touches it: the guild cache, the entitlement cache
(both keyed by the raw id value of the payload) and the interaction
payloads handed to the interaction-parsing entry point. -/
structure ConnectionState where
  guilds : List (PyValue × GuildObj)
  entitlements : List (PyValue × EntitlementObj)
  interactions : List PyValue
deriving Repr

/-- Lookup in a cache keyed by raw id values, under Python equality. -/
def cacheLookup {α : Type} (cache : List (PyValue × α)) (id : PyValue) : Option α :=
  match cache with
  | [] => Option.none
  | (k, v) :: rest => if pyEq k id then Option.some v else cacheLookup rest id

/-- Modelled from the spec: `self._connection._get_create_guild(guild_data)`
lives in the external gateway-client library; the spec says the dispatcher
"resolves/creates the corresponding guild object" in the client state, and
that the guild is resolvable afterward from the client cache. We model it
as: read the id of the payload, return the cached guild when one is
already cached under that id, otherwise create a guild object from the
payload, insert it into the cache and return it. -/
def _get_create_guild (st : ConnectionState) (guild_data : PyValue) :
    Except PyError (ConnectionState × GuildObj) := do
  let id ← guild_data.getItem "id"
  match cacheLookup st.guilds id with
  | Option.some g => pure (st, g)
  | Option.none =>
    let g : GuildObj := ⟨guild_data⟩
    pure ({ st with guilds := (id, g) :: st.guilds }, g)

/-- Modelled from the spec: `self._connection.parse_entitlement_create(data)`
lives in the external gateway-client library; the spec says the dispatcher
"feeds the entitlement payload into the existing entitlement-parsing path
of the client's internal state, which is responsible for cache insertion
and emitting its own notification", and that the entitlement is
retrievable from the client cache afterward. We model it as: read the id
of the payload, build the entitlement record, insert it into the cache and
emit the entitlement notification of the underlying library. -/
def parse_entitlement_create (st : ConnectionState) (data : PyValue) :
    Except PyError (ConnectionState × List Notification) := do
  let id ← data.getItem "id"
  let e : EntitlementObj := ⟨data⟩
  pure ({ st with entitlements := (id, e) :: st.entitlements },
    [⟨"entitlement_create", [.entitlement e]⟩])

/-- Modelled from the spec: `self._connection.parse_interaction_create(data)`
lives in the external gateway-client library; the spec says the raw
interaction payload is "handed directly to the client's existing
interaction-parsing entry point". We model it as recording the payload in
the state. -/
def parse_interaction_create (st : ConnectionState) (data : PyValue) :
    ConnectionState :=
  { st with interactions := data :: st.interactions }

/-- The reply of a route handler: a bare HTTP status
(`Response(status=...)`) or a JSON body (`json_response(...)`, which
carries HTTP status 200). -/
inductive RouteReply where
  | status (code : Nat)
  | jsonBody (v : PyValue)
deriving Repr

/-- The outcome of handling one request: the state afterward, the
notifications dispatched in order, and the reply. -/
abbrev RouteResult := Except PyError (ConnectionState × List Notification × RouteReply)

/-- `Client._dispatch_webhook_event` (client.py lines 135-152): branch on
the event type string; for `APPLICATION_AUTHORIZED` build the user from
the nested user payload, then dispatch `user_install (user, scopes)` when
`data.get('guild')` is `None`, else resolve/create the guild and dispatch
`guild_install (guild, user, scopes)`; for `ENTITLEMENT_CREATE` feed the
data into `parse_entitlement_create`; any other type is a no-op. -/
def Client.dispatch_webhook_event (st : ConnectionState) (event : PyValue) :
    Except PyError (ConnectionState × List Notification) := do
  let ty ← event.getItem "type"
  if pyEq ty (.str "APPLICATION_AUTHORIZED") then do
    let data ← event.getItem "data"
    let guild_data ← data.get "guild"
    let userData ← data.getItem "user"
    let user : UserObj := ⟨userData⟩
    match guild_data with
    | .none => do
      let scopes ← data.getItem "scopes"
      pure (st, [⟨"user_install", [.user user, .value scopes]⟩])
    | _ => do
      let (st2, guild) ← _get_create_guild st guild_data
      let scopes ← data.getItem "scopes"
      pure (st2, [⟨"guild_install", [.guild guild, .user user, .value scopes]⟩])
  else if pyEq ty (.str "ENTITLEMENT_CREATE") then do
    let data ← event.getItem "data"
    parse_entitlement_create st data
  else
    pure (st, [])

/-- `Client.__route` (client.py lines 110-121): `type = data.get('type')`;
if `type == 0` reply 204; elif `type == 1` take `data['event']`, dispatch
it and reply 204; else reply 400. -/
def Client.route (st : ConnectionState) (body : PyValue) : RouteResult := do
  let ty ← body.get "type"
  if pyEq ty (.int 0) then
    pure (st, [], .status 204)
  else if pyEq ty (.int 1) then do
    let event ← body.getItem "event"
    let (st2, ns) ← Client.dispatch_webhook_event st event
    pure (st2, ns, .status 204)
  else
    pure (st, [], .status 400)

/-- `Client.__interactions_route` (client.py lines 123-133): if
`type == 1` reply with the JSON body `(type = 1)`; otherwise hand the
request body to `parse_interaction_create` and reply 204. -/
def Client.interactions_route (st : ConnectionState) (body : PyValue) : RouteResult := do
  let ty ← body.get "type"
  if pyEq ty (.int 1) then
    pure (st, [], .jsonBody (.dict [("type", .int 1)]))
  else
    pure (parse_interaction_create st body, [], .status 204)

/-- `AutoShardedClient._dispatch_webhook_event` (client.py lines 319-336),
translated from the `AutoShardedClient` class body. -/
def AutoShardedClient.dispatch_webhook_event (st : ConnectionState) (event : PyValue) :
    Except PyError (ConnectionState × List Notification) := do
  let ty ← event.getItem "type"
  if pyEq ty (.str "APPLICATION_AUTHORIZED") then do
    let data ← event.getItem "data"
    let guild_data ← data.get "guild"
    let userData ← data.getItem "user"
    let user : UserObj := ⟨userData⟩
    match guild_data with
    | .none => do
      let scopes ← data.getItem "scopes"
      pure (st, [⟨"user_install", [.user user, .value scopes]⟩])
    | _ => do
      let (st2, guild) ← _get_create_guild st guild_data
      let scopes ← data.getItem "scopes"
      pure (st2, [⟨"guild_install", [.guild guild, .user user, .value scopes]⟩])
  else if pyEq ty (.str "ENTITLEMENT_CREATE") then do
    let data ← event.getItem "data"
    parse_entitlement_create st data
  else
    pure (st, [])

/-- `AutoShardedClient.__route` (client.py lines 294-305). -/
def AutoShardedClient.route (st : ConnectionState) (body : PyValue) : RouteResult := do
  let ty ← body.get "type"
  if pyEq ty (.int 0) then
    pure (st, [], .status 204)
  else if pyEq ty (.int 1) then do
    let event ← body.getItem "event"
    let (st2, ns) ← AutoShardedClient.dispatch_webhook_event st event
    pure (st2, ns, .status 204)
  else
    pure (st, [], .status 400)

/-- `AutoShardedClient.__interactions_route` (client.py lines 307-317). -/
def AutoShardedClient.interactions_route (st : ConnectionState) (body : PyValue) : RouteResult := do
  let ty ← body.get "type"
  if pyEq ty (.int 1) then
    pure (st, [], .jsonBody (.dict [("type", .int 1)]))
  else
    pure (parse_interaction_create st body, [], .status 204)

/-- `Bot._dispatch_webhook_event` (client.py lines 504-521), translated
from the `Bot` class body. -/
def Bot.dispatch_webhook_event (st : ConnectionState) (event : PyValue) :
    Except PyError (ConnectionState × List Notification) := do
  let ty ← event.getItem "type"
  if pyEq ty (.str "APPLICATION_AUTHORIZED") then do
    let data ← event.getItem "data"
    let guild_data ← data.get "guild"
    let userData ← data.getItem "user"
    let user : UserObj := ⟨userData⟩
    match guild_data with
    | .none => do
      let scopes ← data.getItem "scopes"
      pure (st, [⟨"user_install", [.user user, .value scopes]⟩])
    | _ => do
      let (st2, guild) ← _get_create_guild st guild_data
      let scopes ← data.getItem "scopes"
      pure (st2, [⟨"guild_install", [.guild guild, .user user, .value scopes]⟩])
  else if pyEq ty (.str "ENTITLEMENT_CREATE") then do
    let data ← event.getItem "data"
    parse_entitlement_create st data
  else
    pure (st, [])

/-- `Bot.__route` (client.py lines 479-490). -/
def Bot.route (st : ConnectionState) (body : PyValue) : RouteResult := do
  let ty ← body.get "type"
  if pyEq ty (.int 0) then
    pure (st, [], .status 204)
  else if pyEq ty (.int 1) then do
    let event ← body.getItem "event"
    let (st2, ns) ← Bot.dispatch_webhook_event st event
    pure (st2, ns, .status 204)
  else
    pure (st, [], .status 400)

/-- `Bot.__interactions_route` (client.py lines 492-502). -/
def Bot.interactions_route (st : ConnectionState) (body : PyValue) : RouteResult := do
  let ty ← body.get "type"
  if pyEq ty (.int 1) then
    pure (st, [], .jsonBody (.dict [("type", .int 1)]))
  else
    pure (parse_interaction_create st body, [], .status 204)

/-- `AutoShardedBot._dispatch_webhook_event` (client.py lines 689-706),
translated from the `AutoShardedBot` class body. -/
def AutoShardedBot.dispatch_webhook_event (st : ConnectionState) (event : PyValue) :
    Except PyError (ConnectionState × List Notification) := do
  let ty ← event.getItem "type"
  if pyEq ty (.str "APPLICATION_AUTHORIZED") then do
    let data ← event.getItem "data"
    let guild_data ← data.get "guild"
    let userData ← data.getItem "user"
    let user : UserObj := ⟨userData⟩
    match guild_data with
    | .none => do
      let scopes ← data.getItem "scopes"
      pure (st, [⟨"user_install", [.user user, .value scopes]⟩])
    | _ => do
      let (st2, guild) ← _get_create_guild st guild_data
      let scopes ← data.getItem "scopes"
      pure (st2, [⟨"guild_install", [.guild guild, .user user, .value scopes]⟩])
  else if pyEq ty (.str "ENTITLEMENT_CREATE") then do
    let data ← event.getItem "data"
    parse_entitlement_create st data
  else
    pure (st, [])

/-- `AutoShardedBot.__route` (client.py lines 664-675). -/
def AutoShardedBot.route (st : ConnectionState) (body : PyValue) : RouteResult := do
  let ty ← body.get "type"
  if pyEq ty (.int 0) then
    pure (st, [], .status 204)
  else if pyEq ty (.int 1) then do
    let event ← body.getItem "event"
    let (st2, ns) ← AutoShardedBot.dispatch_webhook_event st event
    pure (st2, ns, .status 204)
  else
    pure (st, [], .status 400)

/-- `AutoShardedBot.__interactions_route` (client.py lines 677-687). -/
def AutoShardedBot.interactions_route (st : ConnectionState) (body : PyValue) : RouteResult := do
  let ty ← body.get "type"
  if pyEq ty (.int 1) then
    pure (st, [], .jsonBody (.dict [("type", .int 1)]))
  else
    pure (parse_interaction_create st body, [], .status 204)

/-- C1: for every `APPLICATION_AUTHORIZED` event payload whose data
contains no guild value, the dispatcher emits exactly one `user_install`
notification whose arguments are the user object built from the user
field and the scopes list, in that order, and nothing else; the state is
untouched. -/
theorem application_authorized_user_install
    (st : ConnectionState) (ev d : List (String × PyValue)) (u scopes : PyValue)
    (hty : dictLookup ev "type" = Option.some (.str "APPLICATION_AUTHORIZED"))
    (hdata : dictLookup ev "data" = Option.some (.dict d))
    (hguild : dictLookup d "guild" = Option.none)
    (huser : dictLookup d "user" = Option.some u)
    (hscopes : dictLookup d "scopes" = Option.some scopes) :
    Client.dispatch_webhook_event st (.dict ev) =
      .ok (st, [⟨"user_install", [.user ⟨u⟩, .value scopes]⟩]) := by
  simp [Client.dispatch_webhook_event, PyValue.getItem, PyValue.get,
    hty, hdata, hguild, huser, hscopes, pyEq, Bind.bind, Except.bind,
    Functor.map, Except.map, Pure.pure, Except.pure]

/-- C1 witness: a concrete guild-less authorization event dispatches the
single `user_install` notification. -/
theorem application_authorized_user_install_witness :
    Client.dispatch_webhook_event ⟨[], [], []⟩
      (.dict [("type", .str "APPLICATION_AUTHORIZED"), ("timestamp", .str "2025-01-01"),
        ("data", .dict [("user", .dict [("id", .str "42"), ("username", .str "alice")]),
          ("scopes", .list [.str "applications.commands"])])]) =
      .ok (⟨[], [], []⟩,
        [⟨"user_install", [.user ⟨.dict [("id", .str "42"), ("username", .str "alice")]⟩,
          .value (.list [.str "applications.commands"])]⟩]) :=
  application_authorized_user_install ⟨[], [], []⟩ _ _ _ _ rfl rfl rfl rfl rfl

/-- C10: an `APPLICATION_AUTHORIZED` event payload whose data carries an
explicit `guild` key bound to the JSON null value is handled exactly like
an absent guild key: `data.get('guild')` yields the `None` object either
way and the `is None` test sends it down the `user_install` branch, never
`guild_install`. -/
theorem application_authorized_null_guild_user_install
    (st : ConnectionState) (ev d : List (String × PyValue)) (u scopes : PyValue)
    (hty : dictLookup ev "type" = Option.some (.str "APPLICATION_AUTHORIZED"))
    (hdata : dictLookup ev "data" = Option.some (.dict d))
    (hguild : dictLookup d "guild" = Option.some .none)
    (huser : dictLookup d "user" = Option.some u)
    (hscopes : dictLookup d "scopes" = Option.some scopes) :
    Client.dispatch_webhook_event st (.dict ev) =
      .ok (st, [⟨"user_install", [.user ⟨u⟩, .value scopes]⟩]) := by
  simp [Client.dispatch_webhook_event, PyValue.getItem, PyValue.get,
    hty, hdata, hguild, huser, hscopes, pyEq, Bind.bind, Except.bind,
    Functor.map, Except.map, Pure.pure, Except.pure]

/-- C10 witness: a concrete authorization event with a null guild value
dispatches the single `user_install` notification. -/
theorem application_authorized_null_guild_user_install_witness :
    Client.dispatch_webhook_event ⟨[], [], []⟩
      (.dict [("type", .str "APPLICATION_AUTHORIZED"), ("timestamp", .str "2025-01-01"),
        ("data", .dict [("guild", .none),
          ("user", .dict [("id", .str "7"), ("username", .str "bob")]),
          ("scopes", .list [.str "identify"])])]) =
      .ok (⟨[], [], []⟩,
        [⟨"user_install", [.user ⟨.dict [("id", .str "7"), ("username", .str "bob")]⟩,
          .value (.list [.str "identify"])]⟩]) :=
  application_authorized_null_guild_user_install ⟨[], [], []⟩ _ _ _ _ rfl rfl rfl rfl rfl

/-- C4: a request body whose top-level type field is the integer 0 (a
liveness ping) makes the route handler reply HTTP 204 with no
notification dispatched and no state change. -/
theorem ping_replies_204
    (st : ConnectionState) (body : List (String × PyValue))
    (hty : dictLookup body "type" = Option.some (.int 0)) :
    Client.route st (.dict body) = .ok (st, [], .status 204) := by
  simp [Client.route, PyValue.get, hty, pyEq, Bind.bind, Except.bind,
    Pure.pure, Except.pure]

/-- C4 witness: a concrete ping envelope replies 204 and is otherwise
inert. -/
theorem ping_replies_204_witness :
    Client.route ⟨[], [], []⟩
      (.dict [("version", .int 1), ("application_id", .str "99"), ("type", .int 0)]) =
      .ok (⟨[], [], []⟩, [], .status 204) :=
  ping_replies_204 ⟨[], [], []⟩ _ rfl

/-- C6: an event payload whose type string is neither
`APPLICATION_AUTHORIZED` nor `ENTITLEMENT_CREATE` (notably
`QUEST_USER_ENROLLMENT`) makes the dispatcher a no-op: no error, no
notification, state unchanged. -/
theorem unknown_event_type_noop
    (st : ConnectionState) (ev : List (String × PyValue)) (t : PyValue)
    (hty : dictLookup ev "type" = Option.some t)
    (h1 : pyEq t (.str "APPLICATION_AUTHORIZED") = false)
    (h2 : pyEq t (.str "ENTITLEMENT_CREATE") = false) :
    Client.dispatch_webhook_event st (.dict ev) = .ok (st, []) := by
  simp [Client.dispatch_webhook_event, PyValue.getItem, hty, h1, h2,
    Bind.bind, Except.bind, Pure.pure, Except.pure]

/-- C6 witness: a concrete quest-enrollment event is silently dropped. -/
theorem unknown_event_type_noop_witness :
    Client.dispatch_webhook_event ⟨[], [], []⟩
      (.dict [("type", .str "QUEST_USER_ENROLLMENT"), ("timestamp", .str "2025-01-01"),
        ("data", .dict [])]) =
      .ok (⟨[], [], []⟩, []) :=
  unknown_event_type_noop ⟨[], [], []⟩ _ _ rfl (by decide) (by decide)

mutual

/-- Python `==` is reflexive on the values modelled here. -/
theorem pyEq_refl : ∀ v : PyValue, pyEq v v = true
  | .none => rfl
  | .bool b => by simp [pyEq]
  | .int n => by simp [pyEq]
  | .str s => by simp [pyEq]
  | .list xs => by rw [pyEq]; exact pyEqList_refl xs
  | .dict xs => by rw [pyEq]; exact pyEqFields_refl xs
termination_by structural v => v

/-- Elementwise Python `==` is reflexive. -/
theorem pyEqList_refl : ∀ xs : List PyValue, pyEqList xs xs = true
  | [] => rfl
  | x :: xs => by rw [pyEqList]; exact by simp [pyEq_refl x, pyEqList_refl xs]
termination_by structural xs => xs

/-- Fieldwise Python `==` is reflexive. -/
theorem pyEqFields_refl : ∀ xs : List (String × PyValue), pyEqFields xs xs = true
  | [] => rfl
  | (k, x) :: xs => by rw [pyEqFields]; exact by simp [pyEq_refl x, pyEqFields_refl xs]
termination_by structural xs => xs

end

/-- C2: for every `APPLICATION_AUTHORIZED` event payload whose data
contains a guild value, the dispatcher resolves or creates the guild in
the connection state, emits exactly one `guild_install` notification with
arguments (guild, user, scopes) in that order, and the guild is afterward
resolvable from the client cache under its id. -/
theorem application_authorized_guild_install
    (st : ConnectionState) (ev d gf : List (String × PyValue)) (u scopes gid : PyValue)
    (hty : dictLookup ev "type" = Option.some (.str "APPLICATION_AUTHORIZED"))
    (hdata : dictLookup ev "data" = Option.some (.dict d))
    (hguild : dictLookup d "guild" = Option.some (.dict gf))
    (hgid : dictLookup gf "id" = Option.some gid)
    (huser : dictLookup d "user" = Option.some u)
    (hscopes : dictLookup d "scopes" = Option.some scopes) :
    ∃ st2 g, Client.dispatch_webhook_event st (.dict ev) =
        .ok (st2, [⟨"guild_install", [.guild g, .user ⟨u⟩, .value scopes]⟩]) ∧
      cacheLookup st2.guilds gid = Option.some g := by
  rcases hc : cacheLookup st.guilds gid with _ | g
  · refine ⟨{ st with guilds := (gid, ⟨.dict gf⟩) :: st.guilds }, ⟨.dict gf⟩, ?_, ?_⟩
    · simp [Client.dispatch_webhook_event, _get_create_guild, PyValue.getItem, PyValue.get,
        hty, hdata, hguild, hgid, huser, hscopes, hc, pyEq, Bind.bind, Except.bind,
        Functor.map, Except.map, Pure.pure, Except.pure]
    · simp [cacheLookup, pyEq_refl]
  · refine ⟨st, g, ?_, hc⟩
    simp [Client.dispatch_webhook_event, _get_create_guild, PyValue.getItem, PyValue.get,
      hty, hdata, hguild, hgid, huser, hscopes, hc, pyEq, Bind.bind, Except.bind,
      Functor.map, Except.map, Pure.pure, Except.pure]

/-- C2 witness: a concrete authorization event carrying a guild payload
dispatches the single `guild_install` notification and leaves the guild
resolvable from the cache. -/
theorem application_authorized_guild_install_witness :
    ∃ st2 g, Client.dispatch_webhook_event ⟨[], [], []⟩
        (.dict [("type", .str "APPLICATION_AUTHORIZED"), ("timestamp", .str "2025-01-01"),
          ("data", .dict [("guild", .dict [("id", .str "500"), ("name", .str "club")]),
            ("user", .dict [("id", .str "7"), ("username", .str "bob")]),
            ("scopes", .list [.str "bot"])])]) =
        .ok (st2, [⟨"guild_install", [.guild g,
          .user ⟨.dict [("id", .str "7"), ("username", .str "bob")]⟩,
          .value (.list [.str "bot"])]⟩]) ∧
      cacheLookup st2.guilds (.str "500") = Option.some g :=
  application_authorized_guild_install ⟨[], [], []⟩ _ _ _ _ _ _ rfl rfl rfl rfl rfl rfl

/-- C3: for every `ENTITLEMENT_CREATE` event payload the dispatcher
forwards the data field to the entitlement-parsing entry point of the
client state, after which the entitlement is retrievable from the cache
under its id. -/
theorem entitlement_create_cached
    (st : ConnectionState) (ev df : List (String × PyValue)) (eid : PyValue)
    (hty : dictLookup ev "type" = Option.some (.str "ENTITLEMENT_CREATE"))
    (hdata : dictLookup ev "data" = Option.some (.dict df))
    (hid : dictLookup df "id" = Option.some eid) :
    Client.dispatch_webhook_event st (.dict ev) = parse_entitlement_create st (.dict df) ∧
    Client.dispatch_webhook_event st (.dict ev) =
      .ok ({ st with entitlements := (eid, ⟨.dict df⟩) :: st.entitlements },
        [⟨"entitlement_create", [.entitlement ⟨.dict df⟩]⟩]) ∧
    cacheLookup ((eid, (⟨.dict df⟩ : EntitlementObj)) :: st.entitlements) eid =
      Option.some ⟨.dict df⟩ := by
  have hne : pyEq (.str "ENTITLEMENT_CREATE") (.str "APPLICATION_AUTHORIZED") = false := by
    decide
  refine ⟨?_, ?_, ?_⟩
  · simp [Client.dispatch_webhook_event, PyValue.getItem, hty, hdata, hne, pyEq,
      Bind.bind, Except.bind]
  · simp [Client.dispatch_webhook_event, parse_entitlement_create, PyValue.getItem,
      hty, hdata, hid, hne, pyEq, Bind.bind, Except.bind, Functor.map, Except.map,
      Pure.pure, Except.pure]
  · simp [cacheLookup, pyEq_refl]

/-- C3 witness: a concrete entitlement event ends with the entitlement
cached under its id. -/
theorem entitlement_create_cached_witness :
    Client.dispatch_webhook_event ⟨[], [], []⟩
        (.dict [("type", .str "ENTITLEMENT_CREATE"), ("timestamp", .str "2025-01-01"),
          ("data", .dict [("id", .str "900"), ("sku_id", .str "12")])]) =
      parse_entitlement_create ⟨[], [], []⟩ (.dict [("id", .str "900"), ("sku_id", .str "12")]) ∧
    Client.dispatch_webhook_event ⟨[], [], []⟩
        (.dict [("type", .str "ENTITLEMENT_CREATE"), ("timestamp", .str "2025-01-01"),
          ("data", .dict [("id", .str "900"), ("sku_id", .str "12")])]) =
      .ok (⟨[], [(.str "900", ⟨.dict [("id", .str "900"), ("sku_id", .str "12")]⟩)], []⟩,
        [⟨"entitlement_create", [.entitlement ⟨.dict [("id", .str "900"), ("sku_id", .str "12")]⟩]⟩]) ∧
    cacheLookup [((.str "900" : PyValue), (⟨.dict [("id", .str "900"), ("sku_id", .str "12")]⟩ : EntitlementObj))]
      (.str "900") = Option.some ⟨.dict [("id", .str "900"), ("sku_id", .str "12")]⟩ :=
  entitlement_create_cached ⟨[], [], []⟩ _ _ _ rfl rfl rfl

/-- On a dictionary, Python `d.get(k)` is the lookup with the `None`
object as default. -/
theorem PyValue.get_dict (fields : List (String × PyValue)) (k : String) :
    PyValue.get (.dict fields) k = .ok ((dictLookup fields k).getD .none) := by
  cases h : dictLookup fields k <;> simp [PyValue.get, h]

/-- C5 counterexample: the request body with top-level fields
`type = true` and `event = (a quest-enrollment event)` has a type value
that is neither the integer 0 nor the integer 1, yet the route handler
replies 204, not 400: Python `bool` is a subclass of `int`, so the check
`type == 1` accepts the boolean `True`. -/
theorem unrecognized_type_replies_400_counterexample :
    PyValue.bool true ≠ PyValue.int 0 ∧
    PyValue.bool true ≠ PyValue.int 1 ∧
    dictLookup [("type", PyValue.bool true),
      ("event", PyValue.dict [("type", PyValue.str "QUEST_USER_ENROLLMENT")])] "type" =
      Option.some (PyValue.bool true) ∧
    Client.route ⟨[], [], []⟩
      (.dict [("type", .bool true),
        ("event", .dict [("type", .str "QUEST_USER_ENROLLMENT")])]) =
      .ok (⟨[], [], []⟩, [], .status 204) :=
  ⟨fun h => PyValue.noConfusion h, fun h => PyValue.noConfusion h, rfl, rfl⟩

/-- C5 amended: for every request body whose top-level type value compares
unequal under Python equality to both the integer 0 and the integer 1
(under Python equality the booleans `True` and `False` compare equal to 1
and 0; a missing type field yields the `None` object, which compares
unequal to both), the route handler replies 400 and dispatches no
notification. -/
theorem unrecognized_type_replies_400
    (st : ConnectionState) (body : List (String × PyValue))
    (h0 : pyEq ((dictLookup body "type").getD .none) (.int 0) = false)
    (h1 : pyEq ((dictLookup body "type").getD .none) (.int 1) = false) :
    Client.route st (.dict body) = .ok (st, [], .status 400) := by
  simp [Client.route, PyValue.get_dict, h0, h1, Bind.bind, Except.bind,
    Pure.pure, Except.pure]

/-- C5 amended witness: a concrete body with a string type value replies
400, and so does a concrete body with no type field. -/
theorem unrecognized_type_replies_400_witness :
    Client.route ⟨[], [], []⟩ (.dict [("type", .str "2"), ("version", .int 1)]) =
      .ok (⟨[], [], []⟩, [], .status 400) ∧
    Client.route ⟨[], [], []⟩ (.dict [("version", .int 1)]) =
      .ok (⟨[], [], []⟩, [], .status 400) :=
  ⟨unrecognized_type_replies_400 ⟨[], [], []⟩ _ (by decide) (by decide),
    unrecognized_type_replies_400 ⟨[], [], []⟩ _ (by decide) (by decide)⟩

/-- C8: under an envelope with type 1, a missing nested `event` field, or
an authorization event whose data lacks the `user` field, makes the route
handler raise an uncaught `KeyError` (surfacing as a server error), not a
structured 4xx reply. -/
theorem missing_nested_field_raises
    (st : ConnectionState) (body : List (String × PyValue))
    (hty : dictLookup body "type" = Option.some (.int 1)) :
    (dictLookup body "event" = Option.none →
      Client.route st (.dict body) = .error (.keyError "event")) ∧
    (∀ ef df : List (String × PyValue),
      dictLookup body "event" = Option.some (.dict ef) →
      dictLookup ef "type" = Option.some (.str "APPLICATION_AUTHORIZED") →
      dictLookup ef "data" = Option.some (.dict df) →
      dictLookup df "user" = Option.none →
      Client.route st (.dict body) = .error (.keyError "user")) := by
  constructor
  · intro hev
    simp [Client.route, PyValue.get, PyValue.getItem, hty, hev, pyEq,
      Bind.bind, Except.bind, Pure.pure, Except.pure]
  · intro ef df hev hety hed hu
    rcases hg : dictLookup df "guild" with _ | g <;>
      simp [Client.route, Client.dispatch_webhook_event, PyValue.get, PyValue.getItem,
        hty, hev, hety, hed, hu, hg, pyEq, Bind.bind, Except.bind,
        Functor.map, Except.map, Pure.pure, Except.pure]

/-- C8 witness: a concrete type-1 body with no event field raises
`KeyError` on `event`, and a concrete authorization event with no user
field raises `KeyError` on `user`. -/
theorem missing_nested_field_raises_witness :
    Client.route ⟨[], [], []⟩ (.dict [("type", .int 1), ("version", .int 1)]) =
      .error (.keyError "event") ∧
    Client.route ⟨[], [], []⟩
      (.dict [("type", .int 1),
        ("event", .dict [("type", .str "APPLICATION_AUTHORIZED"),
          ("data", .dict [("scopes", .list [])])])]) =
      .error (.keyError "user") :=
  ⟨(missing_nested_field_raises ⟨[], [], []⟩
      [("type", .int 1), ("version", .int 1)] rfl).1 rfl,
    (missing_nested_field_raises ⟨[], [], []⟩
      [("type", .int 1),
        ("event", .dict [("type", .str "APPLICATION_AUTHORIZED"),
          ("data", .dict [("scopes", .list [])])])] rfl).2 _ _ rfl rfl rfl rfl⟩

/-- C9: the four public entry classes have behaviorally identical webhook
handling: on every state and request body the webhook route handlers
agree, the dispatchers agree, and the interactions route handlers agree;
the class bodies differ only in the base class inherited. -/
theorem four_classes_equivalent :
    (∀ (st : ConnectionState) (body : PyValue),
      Client.route st body = AutoShardedClient.route st body ∧
      Client.route st body = Bot.route st body ∧
      Client.route st body = AutoShardedBot.route st body) ∧
    (∀ (st : ConnectionState) (event : PyValue),
      Client.dispatch_webhook_event st event = AutoShardedClient.dispatch_webhook_event st event ∧
      Client.dispatch_webhook_event st event = Bot.dispatch_webhook_event st event ∧
      Client.dispatch_webhook_event st event = AutoShardedBot.dispatch_webhook_event st event) ∧
    (∀ (st : ConnectionState) (body : PyValue),
      Client.interactions_route st body = AutoShardedClient.interactions_route st body ∧
      Client.interactions_route st body = Bot.interactions_route st body ∧
      Client.interactions_route st body = AutoShardedBot.interactions_route st body) :=
  ⟨fun _ _ => ⟨rfl, rfl, rfl⟩, fun _ _ => ⟨rfl, rfl, rfl⟩, fun _ _ => ⟨rfl, rfl, rfl⟩⟩

/-- The control point of one call to `Client.close` (client.py lines
209-230), split at its suspension points: `start` is before the first
await (the whole segment from entry through the `if self._closing_task:`
check and, when the guard fails, the `asyncio.create_task(_close())` call
and the assignment to `self._closing_task`, contains no await and so runs
atomically under the cooperative event loop); `awaiting` is suspended on
`await self._closing_task`; `done` is after that await returns. -/
inductive CloseProc where
  | start
  | awaiting
  | done
deriving Repr, DecidableEq

/-- The shutdown-relevant state of a client together with the control
points of the (countably many potential) concurrent `close()` callers:
whether `self._closing_task` holds a task (a task object is always
truthy; the attribute starts out `None`), whether the single `_close()`
teardown body has finished, and how many times a teardown task has been
created and started. -/
structure CloseSys where
  procs : Nat → CloseProc
  closingTask : Bool
  teardownDone : Bool
  teardownStarts : Nat

/-- The initial state: no caller has entered `close()`, no closing task
exists, no teardown has run. -/
def CloseSys.init : CloseSys :=
  ⟨fun _ => CloseProc.start, false, false, 0⟩

/-- One scheduling step of the cooperative event loop over the `close`
callers and the teardown task, following the atomic segments of
`Client.close`: a caller that finds `self._closing_task` unset creates
and stores the teardown task and suspends awaiting it; a caller that
finds it set suspends awaiting the existing task; the teardown task body
runs to completion; a caller suspended on the task resumes only once the
teardown has finished. -/
inductive CloseStep : CloseSys → CloseSys → Prop where
  | createTask (s : CloseSys) (i : Nat) :
      s.procs i = CloseProc.start → s.closingTask = false →
      CloseStep s { s with procs := Function.update s.procs i CloseProc.awaiting,
                           closingTask := true,
                           teardownStarts := s.teardownStarts + 1 }
  | awaitExisting (s : CloseSys) (i : Nat) :
      s.procs i = CloseProc.start → s.closingTask = true →
      CloseStep s { s with procs := Function.update s.procs i CloseProc.awaiting }
  | runTeardown (s : CloseSys) :
      s.closingTask = true → s.teardownDone = false →
      CloseStep s { s with teardownDone := true }
  | finish (s : CloseSys) (i : Nat) :
      s.procs i = CloseProc.awaiting → s.teardownDone = true →
      CloseStep s { s with procs := Function.update s.procs i CloseProc.done }

/-- Invariant of the shutdown system: at most one teardown task is ever
created, the closing-task attribute is set exactly when one has been
created, a finished teardown implies the task was created, and a caller
that returned from `close()` implies the teardown has finished. -/
def CloseInv (s : CloseSys) : Prop :=
  s.teardownStarts ≤ 1 ∧
  (s.closingTask = true ↔ s.teardownStarts = 1) ∧
  (s.teardownDone = true → s.closingTask = true) ∧
  (∀ i, s.procs i = CloseProc.done → s.teardownDone = true)

/-- The invariant holds initially. -/
theorem closeInv_init : CloseInv CloseSys.init := by
  refine ⟨by simp [CloseSys.init], by simp [CloseSys.init], by simp [CloseSys.init], ?_⟩
  intro i h
  simp [CloseSys.init] at h

/-- Every scheduling step preserves the invariant. -/
theorem closeInv_step {s s2 : CloseSys} (hs : CloseInv s) (h : CloseStep s s2) :
    CloseInv s2 := by
  obtain ⟨inv1, inv2, inv3, inv4⟩ := hs
  cases h with
  | createTask i h1 h2 =>
    have hne : s.teardownStarts ≠ 1 := by
      intro he
      have := inv2.mpr he
      rw [h2] at this
      exact Bool.false_ne_true this
    have hz : s.teardownStarts = 0 := by omega
    refine ⟨by simp [hz], by simp [hz], fun _ => rfl, ?_⟩
    intro j hj
    simp only [Function.update_apply] at hj
    by_cases hij : j = i
    · rw [if_pos hij] at hj
      exact absurd hj (by simp)
    · rw [if_neg hij] at hj
      exact inv4 j hj
  | awaitExisting i h1 h2 =>
    refine ⟨inv1, inv2, inv3, ?_⟩
    intro j hj
    simp only [Function.update_apply] at hj
    by_cases hij : j = i
    · rw [if_pos hij] at hj
      exact absurd hj (by simp)
    · rw [if_neg hij] at hj
      exact inv4 j hj
  | runTeardown h1 h2 =>
    exact ⟨inv1, inv2, fun _ => h1, fun j _ => rfl⟩
  | finish i h1 h2 =>
    exact ⟨inv1, inv2, inv3, fun j _ => h2⟩

/-- C7: `close` is idempotent. Over every interleaving of any number of
concurrent `close()` calls (every state reachable from the initial one):
at most one teardown task is ever created, so later calls await the
single in-flight shutdown instead of re-running the teardown steps, and
any caller that has returned from `close()` did so only after the single
teardown finished (in particular exactly one teardown sequence ran by
then). -/
theorem close_idempotent (s : CloseSys)
    (h : Relation.ReflTransGen CloseStep CloseSys.init s) :
    s.teardownStarts ≤ 1 ∧
    (∀ i, s.procs i = CloseProc.done →
      s.teardownDone = true ∧ s.teardownStarts = 1) := by
  have hinv : CloseInv s := by
    induction h with
    | refl => exact closeInv_init
    | tail _ hstep ih => exact closeInv_step ih hstep
  obtain ⟨inv1, inv2, inv3, inv4⟩ := hinv
  refine ⟨inv1, fun i hi => ?_⟩
  have hd := inv4 i hi
  exact ⟨hd, inv2.mp (inv3 hd)⟩

/-- C7 witness: a concrete complete interleaving of two concurrent
`close()` calls — the first creates the teardown task, the second finds
it set and awaits it, the teardown runs, then both callers return. The
theorem applies to the final state. -/
theorem close_idempotent_witness :
    (CloseSys.mk
      (Function.update (Function.update (Function.update (Function.update
        (fun _ => CloseProc.start) 0 CloseProc.awaiting) 1 CloseProc.awaiting)
        0 CloseProc.done) 1 CloseProc.done)
      true true 1).teardownStarts ≤ 1 ∧
    (∀ i, (CloseSys.mk
      (Function.update (Function.update (Function.update (Function.update
        (fun _ => CloseProc.start) 0 CloseProc.awaiting) 1 CloseProc.awaiting)
        0 CloseProc.done) 1 CloseProc.done)
      true true 1).procs i = CloseProc.done →
      (true = true ∧ (1 : Nat) = 1)) := by
  have h := close_idempotent
    (CloseSys.mk
      (Function.update (Function.update (Function.update (Function.update
        (fun _ => CloseProc.start) 0 CloseProc.awaiting) 1 CloseProc.awaiting)
        0 CloseProc.done) 1 CloseProc.done)
      true true 1)
    (by
      refine Relation.ReflTransGen.head (CloseStep.createTask CloseSys.init 0 rfl rfl) ?_
      refine Relation.ReflTransGen.head (CloseStep.awaitExisting _ 1 (by decide) rfl) ?_
      refine Relation.ReflTransGen.head (CloseStep.runTeardown _ rfl rfl) ?_
      refine Relation.ReflTransGen.head (CloseStep.finish _ 0 (by decide) rfl) ?_
      exact Relation.ReflTransGen.single (CloseStep.finish _ 1 (by decide) rfl))
  exact ⟨h.1, fun i hi => h.2 i hi⟩
